import Mathlib

/-!
Verification of the natural-language specification of the repository
philschmid/optimum-transformers-optimizations-gpu against its source, a pair
of tutorial notebooks stored in src/notebook.ipynb.  The notebooks are thin
glue over external libraries; the embedding below models, in exact rational
arithmetic, the pieces of repository-owned logic the claims are about:

* the latency-measurement loop measure_latency (warm-up loop, timed loop,
  numpy statistics over the recorded samples);
* the dataset-evaluation step (the evaluate helper, the map over the
  validation set, the two metric.compute invocations);
* the setup-cell assertions of the first notebook;
* the accuracy-retention prints, with the Python round built-in modelled as
  round-half-to-even in exact rational arithmetic;
* the straight-line cell structure of both notebooks, the statistics that
  appear in their print statements, and the filesystem accesses they perform.

Python floats are modelled as rationals; the floating-point square root used
by np.std is kept as an explicit function parameter, since square roots leave
the rationals.
-/

namespace OptimumGpu

/-! ## Timing model for measure_latency

A pipeline call is opaque to the notebook: the only observable used by
measure_latency is the wall clock (time.perf_counter) around each call.  A
pipeline is therefore modelled by its duration function: `dur k` is the
wall-clock time consumed by the k-th invocation of the pipeline.  The clock
state tracks the current perf_counter value and how many calls have been
issued so far. -/

structure Clock where
  time : ℚ
  calls : ℕ

/-- One pipeline invocation: the clock advances by the duration of the
current call and the call counter increments. -/
def callPipe (dur : ℕ → ℚ) (c : Clock) : Clock :=
  { time := c.time + dur c.calls, calls := c.calls + 1 }

/-- The warm-up loop of measure_latency: `for _ in range(n): _ = pipe(...)`.
The calls happen (the clock advances) but nothing is recorded. -/
def warmupLoop (dur : ℕ → ℚ) : ℕ → Clock → Clock
  | 0, c => c
  | n + 1, c => warmupLoop dur n (callPipe dur c)

/-- The timed loop of measure_latency: in each iteration a perf_counter
timestamp is taken immediately before the single pipeline call, the call is
made, and the difference of the timestamp taken immediately after it is
appended to the accumulated latencies list. -/
def timedLoop (dur : ℕ → ℚ) : ℕ → Clock → List ℚ → Clock × List ℚ
  | 0, c, latencies => (c, latencies)
  | n + 1, c, latencies =>
    let start_time := c.time
    let c2 := callPipe dur c
    let latency := c2.time - start_time
    timedLoop dur n c2 (latencies ++ [latency])

/-- np.mean: the arithmetic mean. -/
def np_mean (l : List ℚ) : ℚ := l.sum / l.length

/-- np.std with its default ddof=0 computes the square root of the population
variance.  The floating-point square root is passed in as `sqrtF`. -/
def np_std (sqrtF : ℚ → ℚ) (l : List ℚ) : ℚ :=
  sqrtF (((l.map fun x => (x - np_mean l) ^ 2).sum) / l.length)

/-- np.percentile with the default linear-interpolation method: for sorted
data of length n, the q-th percentile sits at rank (n-1)*q/100 and is
interpolated linearly between the two neighbouring order statistics. -/
def np_percentile (l : List ℚ) (q : ℚ) : ℚ :=
  let sorted := List.insertionSort (· ≤ ·) l
  let rank : ℚ := ((l.length : ℚ) - 1) * q / 100
  let lower : ℕ := (⌊rank⌋).toNat
  let fraction : ℚ := rank - (⌊rank⌋ : ℚ)
  let lowerVal := sorted.getD lower 0
  let upperVal := sorted.getD (lower + 1) lowerVal
  lowerVal + fraction * (upperVal - lowerVal)

/-- The list of latencies recorded by measure_latency when it starts from
clock state c0: ten warm-up calls are issued first, then 300 timed calls are
appended to the (initially empty) latencies list. -/
def recordedLatencies (dur : ℕ → ℚ) (c0 : Clock) : List ℚ :=
  (timedLoop dur 300 (warmupLoop dur 10 c0) []).2

/-- The three statistics interpolated into the report string returned by
measure_latency. -/
structure LatencyReport where
  time_p95_ms : ℚ
  time_avg_ms : ℚ
  time_std_ms : ℚ
deriving DecidableEq

/-- measure_latency from both notebooks: 10 warm-up calls, 300 timed calls,
then time_avg_ms, time_std_ms and time_p95_ms are computed from the recorded
latencies, scaled to milliseconds.  The function returns the pair of the
report (modelling the interpolated f-string) and time_p95_ms. -/
def measure_latency (sqrtF : ℚ → ℚ) (dur : ℕ → ℚ) (c0 : Clock) :
    LatencyReport × ℚ :=
  let latencies := recordedLatencies dur c0
  let time_avg_ms := 1000 * np_mean latencies
  let time_std_ms := 1000 * np_std sqrtF latencies
  let time_p95_ms := 1000 * np_percentile latencies 95
  ({ time_p95_ms := time_p95_ms, time_avg_ms := time_avg_ms,
     time_std_ms := time_std_ms }, time_p95_ms)

/-- Modelled from the spec words: the arithmetic mean of the samples. -/
def specArithmeticMean (l : List ℚ) : ℚ := l.sum / l.length

/-- Modelled from the spec words: the population variance of the samples
(mean of the squared deviations from the mean); the population standard
deviation is its square root. -/
def specPopulationVariance (l : List ℚ) : ℚ :=
  ((l.map fun x => (x - specArithmeticMean l) ^ 2).sum) / l.length

/-- The invocation indices of the ten warm-up calls issued by
measure_latency from clock state c0. -/
def warmupCallIndices (c0 : Clock) : List ℕ :=
  (List.range 10).map fun i => c0.calls + i

/-- The invocation indices of the 300 timed calls issued by measure_latency
from clock state c0. -/
def sampleCallIndices (c0 : Clock) : List ℕ :=
  (List.range 300).map fun i => c0.calls + 10 + i

theorem warmupLoop_calls (dur : ℕ → ℚ) :
    ∀ (n : ℕ) (c : Clock), (warmupLoop dur n c).calls = c.calls + n := by
  intro n
  induction n with
  | zero => intro c; simp [warmupLoop]
  | succ n ih =>
    intro c
    rw [warmupLoop, ih]
    simp [callPipe]
    omega

theorem timedLoop_snd (dur : ℕ → ℚ) :
    ∀ (n : ℕ) (c : Clock) (acc : List ℚ),
      (timedLoop dur n c acc).2 =
        acc ++ (List.range n).map fun i => dur (c.calls + i) := by
  intro n
  induction n with
  | zero => intro c acc; simp [timedLoop]
  | succ n ih =>
    intro c acc
    have step : timedLoop dur (n + 1) c acc =
        timedLoop dur n (callPipe dur c)
          (acc ++ [(callPipe dur c).time - c.time]) := rfl
    rw [step, ih]
    have harg : (callPipe dur c).time - c.time = dur c.calls := by
      simp [callPipe]
    have hcalls : (callPipe dur c).calls = c.calls + 1 := rfl
    rw [harg, hcalls, List.range_succ_eq_map]
    have hfun : ((fun i => dur (c.calls + i)) ∘ Nat.succ) =
        fun i => dur (c.calls + 1 + i) := by
      funext i
      simp only [Function.comp_apply]
      congr 1
      omega
    simp only [List.map_cons, List.map_map, hfun, List.append_assoc,
      List.singleton_append, Nat.add_zero]

theorem recordedLatencies_eq (dur : ℕ → ℚ) (c0 : Clock) :
    recordedLatencies dur c0 =
      (List.range 300).map fun i => dur (c0.calls + 10 + i) := by
  rw [recordedLatencies, timedLoop_snd]
  rw [warmupLoop_calls]
  simp

/-- Claim C3: measure_latency operates over a fixed-size sample.  The
recorded latencies are exactly the 300 values obtained by taking perf_counter
timestamps around one pipeline call each (the duration of one single
invocation, indices 10 through 309 counted from the start of the
measurement), the list has length 300, and the invocation indices of the 10
preceding warm-up calls are disjoint from the sampled invocation indices, so
the warm-up calls contribute no samples to the statistics. -/
theorem measure_latency_fixed_sample (dur : ℕ → ℚ) (c0 : Clock) :
    recordedLatencies dur c0 =
      ((List.range 300).map fun i => dur (c0.calls + 10 + i))
    ∧ (recordedLatencies dur c0).length = 300
    ∧ warmupCallIndices c0 ∩ sampleCallIndices c0 = [] := by
  refine ⟨recordedLatencies_eq dur c0, ?_, ?_⟩
  · rw [recordedLatencies_eq]; simp
  · rw [List.inter_eq_nil_iff_disjoint]
    intro a ha hb
    simp only [warmupCallIndices, List.mem_map, List.mem_range] at ha
    simp only [sampleCallIndices, List.mem_map, List.mem_range] at hb
    obtain ⟨i, hi, rfl⟩ := ha
    obtain ⟨j, hj, hij⟩ := hb
    omega

/-- Claim C1: the statistics reported by measure_latency are computed over
exactly the list of timed latencies.  The reported average is the arithmetic
mean of the recorded samples times 1000, the reported standard deviation is
the square root of the population variance of the samples (np.std with
ddof=0) times 1000, the reported P95 is the 95th percentile of the samples
(np.percentile with linear interpolation) times 1000, and the second
component of the returned pair equals that P95 value in milliseconds. -/
theorem measure_latency_reports_sample_stats (sqrtF : ℚ → ℚ) (dur : ℕ → ℚ)
    (c0 : Clock) :
    (measure_latency sqrtF dur c0).1.time_avg_ms =
      1000 * specArithmeticMean (recordedLatencies dur c0)
    ∧ (measure_latency sqrtF dur c0).1.time_std_ms =
      1000 * sqrtF (specPopulationVariance (recordedLatencies dur c0))
    ∧ (measure_latency sqrtF dur c0).1.time_p95_ms =
      1000 * np_percentile (recordedLatencies dur c0) 95
    ∧ (measure_latency sqrtF dur c0).2 =
      (measure_latency sqrtF dur c0).1.time_p95_ms := by
  refine ⟨rfl, ?_, rfl, rfl⟩
  simp [measure_latency, np_std, np_mean, specPopulationVariance,
    specArithmeticMean]

/-! ## Request/response records and the evaluate helper

The question-answering pipelines are opaque: each is modelled as a function
from a request (question, context) to a response (score, answer span start
and end, answer string), exactly the transient record shapes exchanged at
the notebook interface. -/

structure SquadAnswers where
  text : List String
  answer_start : List ℕ
deriving DecidableEq

structure SquadExample where
  id : String
  question : String
  context : String
  answers : SquadAnswers
deriving DecidableEq

structure QARequest where
  question : String
  context : String
deriving DecidableEq

structure QAResponse where
  score : ℚ
  start : ℕ
  «end» : ℕ
  answer : String
deriving DecidableEq

/-- The per-example reference record built by evaluate: the example id and
its ground-truth answers. -/
structure Reference where
  id : String
  answers : SquadAnswers
deriving DecidableEq

/-- The per-example prediction record built by the first notebook: the
example id and the predicted answer text. -/
structure Prediction where
  id : String
  prediction_text : String
deriving DecidableEq

/-- The record returned by the evaluate helper of the first notebook, with
its three entries. -/
structure EvalRecord where
  reference : Reference
  default : Prediction
  optimized : Prediction
deriving DecidableEq

/-- The evaluate helper of the first notebook: it calls both pipelines on
the question and context of the example and builds the record of reference,
default and optimized entries; of each pipeline response only the answer
field is used. -/
def evaluate (vanilla_qa optimized_qa : QARequest → QAResponse)
    (ex : SquadExample) : EvalRecord :=
  let default := vanilla_qa { question := ex.question, context := ex.context }
  let optimized := optimized_qa { question := ex.question, context := ex.context }
  { reference := { id := ex.id, answers := ex.answers }
    default := { id := ex.id, prediction_text := default.answer }
    optimized := { id := ex.id, prediction_text := optimized.answer } }

/-- The per-example prediction record built by the second notebook, which
additionally carries a no_answer_probability entry set to 0. -/
structure PredictionV2 where
  id : String
  prediction_text : String
  no_answer_probability : ℚ
deriving DecidableEq

/-- The record returned by the evaluate helper of the second notebook. -/
structure EvalRecordV2 where
  reference : Reference
  default : PredictionV2
  optimized : PredictionV2
deriving DecidableEq

/-- The evaluate helper of the second notebook. -/
def evaluate2 (optimum_qa opt_optimum_qa : QARequest → QAResponse)
    (ex : SquadExample) : EvalRecordV2 :=
  let default := optimum_qa { question := ex.question, context := ex.context }
  let optimized := opt_optimum_qa { question := ex.question, context := ex.context }
  { reference := { id := ex.id, answers := ex.answers }
    default := { id := ex.id, prediction_text := default.answer,
                 no_answer_probability := 0 }
    optimized := { id := ex.id, prediction_text := optimized.answer,
                   no_answer_probability := 0 } }

/-- The arguments of one metric.compute invocation: the collected
predictions and references. -/
structure MetricCall where
  predictions : List Prediction
  references : List Reference
deriving DecidableEq

/-- The dataset-evaluation step of the first notebook: result is the map of
evaluate over the validation set, followed by one metric.compute invocation
per model, each over the collected predictions and the collected
references. -/
structure EvalOutcome where
  result : List EvalRecord
  metricCalls : List MetricCall
deriving DecidableEq

def evalStep (vanilla_qa optimized_qa : QARequest → QAResponse)
    (eval_dataset : List SquadExample) : EvalOutcome :=
  let result := eval_dataset.map (evaluate vanilla_qa optimized_qa)
  let default_acc : MetricCall :=
    { predictions := result.map (·.default), references := result.map (·.reference) }
  let optimized : MetricCall :=
    { predictions := result.map (·.optimized), references := result.map (·.reference) }
  { result := result, metricCalls := [default_acc, optimized] }

/-- Claim C4: the dataset-evaluation step applies the evaluate scoring
function to every example of the loaded validation dataset via map (the
i-th record is evaluate of the i-th example, and there are as many records
as examples), and aggregates the metric with exactly one metric.compute
call per model, each over the collected predictions and collected
references. -/
theorem evalStep_maps_and_aggregates (v o : QARequest → QAResponse)
    (ds : List SquadExample) :
    (evalStep v o ds).result.length = ds.length
    ∧ (∀ i : ℕ, (evalStep v o ds).result[i]? = (ds[i]?).map (evaluate v o))
    ∧ (evalStep v o ds).metricCalls.length = 2
    ∧ (evalStep v o ds).metricCalls =
      [{ predictions := (evalStep v o ds).result.map (·.default),
         references := (evalStep v o ds).result.map (·.reference) },
       { predictions := (evalStep v o ds).result.map (·.optimized),
         references := (evalStep v o ds).result.map (·.reference) }] := by
  refine ⟨by simp [evalStep], ?_, rfl, rfl⟩
  intro i
  simp [evalStep]

/-! ## The full pipeline interface of the notebooks

The question-answering pipelines are not the only pipelines the notebooks
talk to: the benchmark cell of the second notebook builds two
text-classification pipelines (vanilla_clx and clx) and calls them as
pipe(payload) with one bare payload string, receiving label/score records
(the recorded output of that notebook shows such a record).  The sum types
below cover every record exchanged with a pipeline in either notebook, and
the call-site list transliterates, in source order, every pipeline call the
notebooks make. -/

/-- The record returned by a text-classification pipeline call: a label and
a score.  It carries no answer span and no answer string. -/
structure ClassificationResponse where
  label : String
  score : ℚ
deriving DecidableEq

/-- A request sent to a pipeline at the notebook interface: either the
question/context record sent to a question-answering pipeline, or the bare
payload string the benchmark cell of the second notebook sends to its
text-classification pipelines. -/
inductive PipeRequest
  | qa (request : QARequest)
  | rawText (payload : String)
deriving DecidableEq

/-- A response received from a pipeline at the notebook interface: either a
question-answering record or a text-classification record. -/
inductive PipeResponse
  | qa (response : QAResponse)
  | classification (response : ClassificationResponse)
deriving DecidableEq

/-- Whether a request record carries a question and a context. -/
def PipeRequest.hasQuestionContext : PipeRequest → Bool
  | .qa _ => true
  | .rawText _ => false

/-- Whether a response record carries a score, an answer span and an answer
string. -/
def PipeResponse.hasAnswerSpan : PipeResponse → Bool
  | .qa _ => true
  | .classification _ => false

/-- The kinds of pipelines the notebooks call. -/
inductive PipelineKind
  | questionAnswering
  | textClassification
deriving DecidableEq

/-- The request a call site of the given kind sends, given the data the
source passes there: a question-answering site passes the question/context
keyword pair, a text-classification site passes one bare payload string. -/
def requestForm (k : PipelineKind) (q : QARequest) (payload : String) :
    PipeRequest :=
  match k with
  | .questionAnswering => PipeRequest.qa q
  | .textClassification => PipeRequest.rawText payload

/-- The response a call site of the given kind receives. -/
def responseForm (k : PipelineKind) (r : QAResponse)
    (c : ClassificationResponse) : PipeResponse :=
  match k with
  | .questionAnswering => PipeResponse.qa r
  | .textClassification => PipeResponse.classification c

/-- One pipeline call site: the notebook it belongs to and the kind of
pipeline it calls. -/
structure CallSite where
  notebook : ℕ
  kind : PipelineKind
deriving DecidableEq

/-- Every pipeline call site of both notebooks, in source order.  First
notebook: the vanilla and optimized smoke-test calls, the two calls inside
evaluate, and the benchmark calls inside measure_latency for each model.
Second notebook: the vanilla and the two optimized smoke-test calls, the two
calls inside evaluate, and the benchmark calls inside measure_latency, which
there are made on the two text-classification pipelines vanilla_clx and
clx. -/
def notebookCallSites : List CallSite :=
  [{ notebook := 1, kind := .questionAnswering },
   { notebook := 1, kind := .questionAnswering },
   { notebook := 1, kind := .questionAnswering },
   { notebook := 1, kind := .questionAnswering },
   { notebook := 1, kind := .questionAnswering },
   { notebook := 1, kind := .questionAnswering },
   { notebook := 2, kind := .questionAnswering },
   { notebook := 2, kind := .questionAnswering },
   { notebook := 2, kind := .questionAnswering },
   { notebook := 2, kind := .questionAnswering },
   { notebook := 2, kind := .questionAnswering },
   { notebook := 2, kind := .textClassification },
   { notebook := 2, kind := .textClassification }]

/-- Counterexample to claim C8: not every record exchanged at the notebook
interface has the question-answering shape.  The benchmark cell of the
second notebook contains text-classification call sites; such a site sends
a bare payload string that carries no question and no context, and receives
a label/score record (the recorded output of that notebook shows the label
exchange_rate with score 0.9802021384239197) that carries no answer span
and no answer string. -/
theorem notebook2_benchmark_not_qa_shaped :
    ({ notebook := 2, kind := PipelineKind.textClassification } : CallSite) ∈
      notebookCallSites
    ∧ PipeRequest.hasQuestionContext
        (PipeRequest.rawText "Hello my name is Philipp.") = false
    ∧ PipeResponse.hasAnswerSpan
        (PipeResponse.classification
          { label := "exchange_rate",
            score := 9802021384239197 / 10000000000000000 }) = false := by
  decide

/-- Claim C8 as amended: every record exchanged with a question-answering
pipeline has the transient shape the spec names (the request carries a
question and a context, the response carries a score, an answer span and an
answer string), and the evaluate helper reads only the answer field of each
response: replacing the pipelines by any pipelines whose responses agree on
the answer field leaves the evaluate output unchanged, and the prediction
texts are exactly the answer fields of the responses to the request built
from the question and context of the example.  The only call sites
exchanging records of any other shape are the two text-classification
benchmark sites of the second notebook, whose requests are bare payload
strings and whose responses are label/score records. -/
theorem qa_records_shape_amended (v v2 o o2 : QARequest → QAResponse)
    (ex : SquadExample)
    (hv : ∀ q : QARequest, (v q).answer = (v2 q).answer)
    (ho : ∀ q : QARequest, (o q).answer = (o2 q).answer) :
    evaluate v o ex = evaluate v2 o2 ex
    ∧ (evaluate v o ex).default.prediction_text =
      (v { question := ex.question, context := ex.context }).answer
    ∧ (evaluate v o ex).optimized.prediction_text =
      (o { question := ex.question, context := ex.context }).answer
    ∧ (∀ s ∈ notebookCallSites, s.kind = PipelineKind.questionAnswering →
        (∀ (q : QARequest) (p : String),
          PipeRequest.hasQuestionContext (requestForm s.kind q p) = true)
        ∧ (∀ (r : QAResponse) (c : ClassificationResponse),
          PipeResponse.hasAnswerSpan (responseForm s.kind r c) = true))
    ∧ (∀ s ∈ notebookCallSites, s.kind = PipelineKind.textClassification →
        s.notebook = 2
        ∧ (∀ (q : QARequest) (p : String),
          PipeRequest.hasQuestionContext (requestForm s.kind q p) = false)
        ∧ (∀ (r : QAResponse) (c : ClassificationResponse),
          PipeResponse.hasAnswerSpan (responseForm s.kind r c) = false)) := by
  have hclx : ∀ s ∈ notebookCallSites,
      s.kind = PipelineKind.textClassification → s.notebook = 2 := by
    decide
  refine ⟨?_, rfl, rfl, ?_, ?_⟩
  · simp [evaluate, EvalRecord.mk.injEq, Prediction.mk.injEq, hv, ho]
  · intro s _ hk
    rw [hk]
    exact ⟨fun _ _ => rfl, fun _ _ => rfl⟩
  · intro s hs hk
    refine ⟨hclx s hs hk, ?_, ?_⟩ <;> rw [hk]
    · exact fun _ _ => rfl
    · exact fun _ _ => rfl

/-- A pipeline with constant response, used to instantiate
qa_records_shape_amended at a concrete input. -/
def constPipe (score : ℚ) (s e : ℕ) (ans : String) : QARequest → QAResponse :=
  fun _ => { score := score, start := s, «end» := e, answer := ans }

/-- A concrete dataset example used in witnesses. -/
def witnessExample : SquadExample :=
  { id := "5733be284776f41900661182"
    question := "As what is Philipp working?"
    context := "Philipp is working as a Technical Lead."
    answers := { text := ["Technical Lead"], answer_start := [24] } }

/-- Witness for the amended claim C8: two pairs of pipelines that agree on
the answer field but differ in score and span produce the same evaluate
record on a concrete example, and the prediction text is the answer field
of the vanilla response. -/
theorem qa_records_shape_amended_witness :
    evaluate (constPipe (1/2) 24 38 "Technical Lead")
        (constPipe (3/4) 0 7 "Philipp") witnessExample =
      evaluate (constPipe (9/10) 2 5 "Technical Lead")
        (constPipe (1/10) 1 3 "Philipp") witnessExample
    ∧ (evaluate (constPipe (1/2) 24 38 "Technical Lead")
        (constPipe (3/4) 0 7 "Philipp") witnessExample).default.prediction_text =
      (constPipe (1/2) 24 38 "Technical Lead"
        { question := witnessExample.question,
          context := witnessExample.context }).answer :=
  ⟨(qa_records_shape_amended
      (constPipe (1/2) 24 38 "Technical Lead")
      (constPipe (9/10) 2 5 "Technical Lead")
      (constPipe (3/4) 0 7 "Philipp")
      (constPipe (1/10) 1 3 "Philipp")
      witnessExample (fun _ => rfl) (fun _ => rfl)).1,
   (qa_records_shape_amended
      (constPipe (1/2) 24 38 "Technical Lead")
      (constPipe (9/10) 2 5 "Technical Lead")
      (constPipe (3/4) 0 7 "Philipp")
      (constPipe (1/10) 1 3 "Philipp")
      witnessExample (fun _ => rfl) (fun _ => rfl)).2.1⟩

/-- Claim C9: the record returned by evaluate is id-consistent, in both
notebooks: the reference, default and optimized entries all carry the id of
the input example, and the reference entry carries the ground-truth answers
of the example unchanged. -/
theorem evaluate_id_consistent (v o : QARequest → QAResponse)
    (ex : SquadExample) :
    (evaluate v o ex).reference.id = ex.id
    ∧ (evaluate v o ex).default.id = ex.id
    ∧ (evaluate v o ex).optimized.id = ex.id
    ∧ (evaluate v o ex).reference.answers = ex.answers
    ∧ (evaluate2 v o ex).reference.id = ex.id
    ∧ (evaluate2 v o ex).default.id = ex.id
    ∧ (evaluate2 v o ex).optimized.id = ex.id
    ∧ (evaluate2 v o ex).reference.answers = ex.answers :=
  ⟨rfl, rfl, rfl, rfl, rfl, rfl, rfl, rfl⟩

/-! ## The setup cell of the first notebook -/

/-- The setup cell of the first notebook, as a function of the runtime
environment it inspects: the list returned by get_available_providers, the
string returned by get_device, and the onnxruntime version string.  The
three assert statements run in source order; the first failing one raises
AssertionError, carrying the message of the assert when it has one.  The
version comparison is the Python string comparison, i.e. lexicographic by
code point, which the Lean String order also is. -/
def setupCell (providers : List String) (device : String) (version : String) :
    Except (Option String) Unit :=
  if "CUDAExecutionProvider" ∈ providers then
    if "GPU" = device then
      if "1.11.1" < version then
        Except.ok ()
      else
        Except.error (some "you need a newer version of ONNX Runtime")
    else
      Except.error none
  else
    Except.error (some "ONNX Runtime GPU provider not found. Make sure onnxruntime-gpu is installed and onnxruntime is uninstalled.")

/-- Claim C5: the setup cell raises an AssertionError if and only if the
CUDAExecutionProvider is absent from the available providers, or the
reported device is not the string GPU, or the version string is not
lexicographically greater than 1.11.1. -/
theorem setupCell_raises_iff (providers : List String) (device : String)
    (version : String) :
    (∃ e, setupCell providers device version = Except.error e) ↔
      ("CUDAExecutionProvider" ∉ providers
        ∨ device ≠ "GPU"
        ∨ ¬ ("1.11.1" < version)) := by
  unfold setupCell
  split_ifs with h1 h2 h3 <;> simp_all
  tauto

/-! ## The accuracy-retention prints

Python round(x, ndigits) rounds half to even; it is modelled here in exact
rational arithmetic. -/

/-- Round half to even: the nearest integer, with ties broken towards the
even neighbour. -/
def roundHalfEven (x : ℚ) : ℤ :=
  let f := ⌊x⌋
  let r := x - (f : ℚ)
  if r < 1 / 2 then f
  else if 1 / 2 < r then f + 1
  else if 2 ∣ f then f else f + 1

/-- Python round(x, ndigits) in exact rational arithmetic. -/
def pyRound (x : ℚ) (ndigits : ℕ) : ℚ :=
  (roundHalfEven (x * 10 ^ ndigits) : ℚ) / 10 ^ ndigits

/-- The accuracy-retention figure printed by the first notebook:
round of the f1 ratio to two decimal places, scaled to a percentage. -/
def retentionFigure1 (optimized_f1 vanilla_f1 : ℚ) : ℚ :=
  pyRound (optimized_f1 / vanilla_f1) 2 * 100

/-- The accuracy-retention figure printed by the second notebook: the
accuracy is divided by the hard-coded vanilla figure 0.925 and the ratio is
rounded to FOUR decimal places before being scaled to a percentage. -/
def retentionFigure2 (accuracy : ℚ) : ℚ :=
  pyRound (accuracy / (925 / 1000)) 4 * 100

/-- Counterexample to claim C6: the second notebook rounds the ratio to four
decimal places, not two.  At accuracy 0.92241 the ratio is exactly 0.9972,
which lies in the interval [0.995, 1.005); the printed figure is 99.72, the
formula of the claim gives 100, and 99.72 is not an integer multiple of
1 percent. -/
theorem retentionFigure2_not_round2 :
    retentionFigure2 (92241 / 100000) = 9972 / 100
    ∧ pyRound ((92241 / 100000) / (925 / 1000)) 2 * 100 = 100
    ∧ (995 / 1000 : ℚ) ≤ (92241 / 100000) / (925 / 1000)
    ∧ (92241 / 100000 : ℚ) / (925 / 1000) < 1005 / 1000
    ∧ (∀ k : ℤ, retentionFigure2 (92241 / 100000) ≠ (k : ℚ)) := by
  have hratio : (92241 / 100000 : ℚ) / (925 / 1000) = 92241 / 92500 := by
    norm_num
  have h1 : retentionFigure2 (92241 / 100000) = 9972 / 100 := by
    rw [retentionFigure2, hratio]
    have hx : (92241 / 92500 : ℚ) * 10 ^ 4 = 9972 := by norm_num
    rw [pyRound, hx]
    have : roundHalfEven 9972 = 9972 := by
      rw [roundHalfEven]
      norm_num
    rw [this]
    norm_num
  refine ⟨h1, ?_, by rw [hratio]; norm_num, by rw [hratio]; norm_num, ?_⟩
  · rw [hratio]
    have hx : (92241 / 92500 : ℚ) * 10 ^ 2 = 9972 / 100 := by norm_num
    rw [pyRound, hx]
    have hfl : ⌊(9972 / 100 : ℚ)⌋ = 99 := by
      rw [Int.floor_eq_iff]
      push_cast
      norm_num
    have : roundHalfEven (9972 / 100) = 100 := by
      rw [roundHalfEven]
      simp only [hfl]
      norm_num
    rw [this]
    norm_num
  · intro k hk
    rw [h1] at hk
    have : (9972 : ℚ) = (k : ℚ) * 100 := by
      field_simp at hk
      exact_mod_cast hk
    have h9972 : (9972 : ℤ) = k * 100 := by exact_mod_cast this
    omega

/-- Claim C6 as amended: in the FIRST notebook the printed accuracy-retention
figure equals round(optimized_f1 / vanilla_f1, 2) * 100, it is always an
integer multiple of 1 percent, and any ratio in [0.995, 1.005) is displayed
as exactly 100.00 percent; the SECOND notebook instead prints
round(accuracy / 0.925, 4) * 100, which is an integer multiple of 0.01
percent. -/
theorem retentionFigure_amended (o v a : ℚ) :
    retentionFigure1 o v = pyRound (o / v) 2 * 100
    ∧ (∃ k : ℤ, retentionFigure1 o v = (k : ℚ))
    ∧ ((995 / 1000 : ℚ) ≤ o / v → o / v < 1005 / 1000 →
        retentionFigure1 o v = 100)
    ∧ (∃ k : ℤ, retentionFigure2 a = (k : ℚ) / 100) := by
  refine ⟨rfl, ?_, ?_, ?_⟩
  · refine ⟨roundHalfEven (o / v * 10 ^ 2), ?_⟩
    rw [retentionFigure1, pyRound]
    norm_num
  · intro hlo hhi
    set r := o / v with hr
    have hx_lo : (199 / 2 : ℚ) ≤ r * 10 ^ 2 := by
      norm_num
      linarith
    have hx_hi : r * 10 ^ 2 < 201 / 2 := by
      norm_num
      linarith
    set x := r * 10 ^ 2 with hxdef
    have hrhe : roundHalfEven x = 100 := by
      have hf_lb : (99 : ℤ) ≤ ⌊x⌋ := by
        apply Int.le_floor.mpr
        push_cast
        linarith
      have hf_ub : ⌊x⌋ < 101 := by
        apply Int.floor_lt.mpr
        push_cast
        linarith
      rcases (by omega : ⌊x⌋ = 99 ∨ ⌊x⌋ = 100) with h99 | h100
      · have hxlt : x < 100 := by
          have h := Int.lt_floor_add_one x
          rw [h99] at h
          push_cast at h
          linarith
        have hfloor_le : (99 : ℚ) ≤ x := by
          have h := Int.floor_le x
          rw [h99] at h
          push_cast at h
          linarith
        rw [roundHalfEven]
        simp only [h99]
        split_ifs with hb1 hb2 hb3
        · push_cast at hb1
          linarith
        · norm_num
        · omega
        · norm_num
      · have hfloor_le : (100 : ℚ) ≤ x := by
          have h := Int.floor_le x
          rw [h100] at h
          push_cast at h
          linarith
        rw [roundHalfEven]
        simp only [h100]
        split_ifs with hb1 hb2 hb3
        · norm_num
        · push_cast at hb2
          linarith
        · norm_num
        · push_cast at hb1 hb2
          linarith
    rw [retentionFigure1, pyRound, ← hxdef, hrhe]
    norm_num
  · refine ⟨roundHalfEven (a / (925 / 1000) * 10 ^ 4), ?_⟩
    rw [retentionFigure2, pyRound]
    set k := roundHalfEven (a / (925 / 1000) * 10 ^ 4)
    ring

/-- Witness for the amended claim C6 at the concrete ratio 0.999: the
hypotheses 0.995 ≤ 999/1000 and 999/1000 < 1.005 hold, and the first
notebook displays exactly 100. -/
theorem retentionFigure_amended_witness :
    retentionFigure1 999 1000 = 100 :=
  (retentionFigure_amended 999 1000 (1 / 2)).2.2.1 (by norm_num) (by norm_num)

/-! ## The statistics computed and printed by each notebook

Each print statement of the notebooks interpolates zero or more benchmark
statistics; the lists below transliterate, cell by cell and in source order,
which statistic every print statement reports.  Prints that carry no
benchmark statistic (device banner, raw pipeline responses, the payload
length) appear as `other`. -/

inductive Stat
  | f1
  | exactMatch
  | p95Latency
  | avgLatency
  | stdLatency
  | accuracyRetention
  | accuracy
  | modelSize
  | speedup
  | other
deriving DecidableEq

/-- The statistics appearing in the print statements of the first notebook,
in source order: the device banner and the two raw pipeline responses, then
"vanilla model: f1=...", "optimized model: f1=...", the accuracy-retention
line, the two measure_latency report strings (P95, average and standard
deviation each), and the improvement factor. -/
def notebook1Reported : List Stat :=
  [.other, .other, .other,
   .f1, .f1, .accuracyRetention,
   .p95Latency, .avgLatency, .stdLatency,
   .p95Latency, .avgLatency, .stdLatency,
   .speedup]

/-- The statistics appearing in the print statements of the second notebook,
in source order: the two model-file-size lines, the payload-length line, the
three "exact=...% f1=...%" lines (vanilla, optimized, quantized), the two
literal accuracy lines, the accuracy-retention line, the two measure_latency
report strings, and the improvement factor. -/
def notebook2Reported : List Stat :=
  [.modelSize, .modelSize,
   .exactMatch, .f1, .exactMatch, .f1, .exactMatch, .f1,
   .accuracy, .accuracy, .accuracyRetention,
   .other,
   .p95Latency, .avgLatency, .stdLatency,
   .p95Latency, .avgLatency, .stdLatency,
   .speedup]

/-- The statistics computed by the first notebook: the squad metric returns
a record with keys exact_match and f1, and measure_latency computes the P95,
average and standard-deviation latencies. -/
def notebook1Computed : List Stat :=
  [.exactMatch, .f1, .p95Latency, .avgLatency, .stdLatency]

/-- The statistics computed by the second notebook: the squad_v2 metric
returns exact and f1 among its keys, and measure_latency computes the P95,
average and standard-deviation latencies. -/
def notebook2Computed : List Stat :=
  [.exactMatch, .f1, .p95Latency, .avgLatency, .stdLatency]

/-- Counterexample to claim C2: the first notebook never reports the
exact-match statistic; no print statement of the first notebook interpolates
it, although the squad metric it calls does compute it. -/
theorem notebook1_reports_no_exact_match :
    Stat.exactMatch ∉ notebook1Reported
    ∧ Stat.exactMatch ∈ notebook1Computed := by
  decide

/-- Claim C2 as amended: both notebooks compute all three summary statistics
(F1, exact-match and p95 latency) and report F1 and p95 latency at least
twice each (once for the vanilla and once for the optimized/quantized
model), but exact-match is reported only by the second notebook; the first
notebook computes it inside metric.compute without printing it. -/
theorem notebooks_report_stats_amended :
    Stat.f1 ∈ notebook1Computed
    ∧ Stat.exactMatch ∈ notebook1Computed
    ∧ Stat.p95Latency ∈ notebook1Computed
    ∧ Stat.f1 ∈ notebook2Computed
    ∧ Stat.exactMatch ∈ notebook2Computed
    ∧ Stat.p95Latency ∈ notebook2Computed
    ∧ 2 ≤ notebook1Reported.count Stat.f1
    ∧ 2 ≤ notebook1Reported.count Stat.p95Latency
    ∧ 2 ≤ notebook2Reported.count Stat.f1
    ∧ 2 ≤ notebook2Reported.count Stat.p95Latency
    ∧ Stat.exactMatch ∈ notebook2Reported
    ∧ Stat.exactMatch ∉ notebook1Reported := by
  decide

/-! ## The straight-line cell structure of the notebooks

Each code cell of a notebook is a straight-line script: no cell contains an
if statement or loop over the listed repository-level steps, so running a
notebook executes its cells in their fixed source order whatever the runtime
data.  A run is modelled by folding arbitrary per-step environment effects
(standing for whatever the external libraries do) over the fixed step list
while emitting the trace of executed steps. -/

inductive Step
  | installDeps
  | setupAsserts
  | exportOnnx
  | payloadDef
  | vanillaPipeline
  | graphOptimize
  | reloadOptimized
  | quantize
  | sizeCheck
  | loadDataset
  | evaluateStep
  | metricPrints
  | benchmark
deriving DecidableEq

/-- The code cells of the first notebook in source order. -/
def notebook1Steps : List Step :=
  [.installDeps, .setupAsserts, .exportOnnx, .payloadDef, .vanillaPipeline,
   .graphOptimize, .reloadOptimized, .vanillaPipeline, .loadDataset,
   .evaluateStep, .benchmark]

/-- The code cells of the second notebook in source order. -/
def notebook2Steps : List Step :=
  [.installDeps, .exportOnnx, .payloadDef, .vanillaPipeline, .graphOptimize,
   .reloadOptimized, .quantize, .sizeCheck, .reloadOptimized, .loadDataset,
   .evaluateStep, .metricPrints, .benchmark]

/-- Run a straight-line notebook: execute each step in order, threading the
environment through the per-step effects, and emit the trace. -/
def runSteps {Env : Type} (effects : Step → Env → Env) :
    List Step → Env → List Step × Env
  | [], e => ([], e)
  | s :: rest, e =>
    let p := runSteps effects rest (effects s e)
    (s :: p.1, p.2)

/-- The order of repository-level steps named by claim C7. -/
def claimedOrder : List Step :=
  [.exportOnnx, .graphOptimize, .reloadOptimized, .evaluateStep, .benchmark]

theorem runSteps_trace {Env : Type} (effects : Step → Env → Env) :
    ∀ (l : List Step) (e : Env), (runSteps effects l e).1 = l := by
  intro l
  induction l with
  | nil => intro e; rfl
  | cons s rest ih =>
    intro e
    rw [runSteps]
    rw [ih]

/-- Claim C7: each notebook is a linear sequence with no data-dependent
branching.  Whatever the runtime environment and whatever the external
libraries do to it, the executed trace is the fixed source-order cell list
(in particular the trace is the same for any two environments), and export,
graph optimization, reload of the optimized model, evaluation and latency
benchmarking occur in that order, none skipped, in both notebooks. -/
theorem notebooks_linear_sequence (Env : Type) (effects : Step → Env → Env)
    (e e2 : Env) :
    (runSteps effects notebook1Steps e).1 = notebook1Steps
    ∧ (runSteps effects notebook1Steps e).1 =
      (runSteps effects notebook1Steps e2).1
    ∧ (runSteps effects notebook2Steps e).1 = notebook2Steps
    ∧ claimedOrder.Sublist notebook1Steps
    ∧ claimedOrder.Sublist notebook2Steps := by
  refine ⟨runSteps_trace effects notebook1Steps e, ?_, ?_, by decide, by decide⟩
  · rw [runSteps_trace, runSteps_trace]
  · exact runSteps_trace effects notebook2Steps e

/-! ## Filesystem accesses of the notebook code -/

inductive FsOp
  | write
  | delete
  | readSize
deriving DecidableEq

/-- One filesystem access occurring while the notebooks run: the call it
happens in, the kind of operation, and whether the access is performed by
notebook code itself (direct) or inside an external library call. -/
structure FsAccess where
  callee : String
  op : FsOp
  direct : Bool
deriving DecidableEq

/-- The external-library calls through which model artefacts are
persisted. -/
def persistenceCallees : List String :=
  ["model.save_pretrained", "tokenizer.save_pretrained", "optimizer.export",
   "dynamic_quantizer.export"]

/-- All filesystem accesses of both notebooks, in source order: the first
notebook saves the ONNX checkpoint and the tokenizer and exports the
optimized graph, all inside external-library calls; the second notebook does
the same, additionally exports the quantized model inside an external call,
and reads the two model file sizes via os.path.getsize, which is the only
filesystem access performed by notebook code itself. -/
def notebookFsAccesses : List FsAccess :=
  [{ callee := "model.save_pretrained", op := .write, direct := false },
   { callee := "tokenizer.save_pretrained", op := .write, direct := false },
   { callee := "optimizer.export", op := .write, direct := false },
   { callee := "model.save_pretrained", op := .write, direct := false },
   { callee := "tokenizer.save_pretrained", op := .write, direct := false },
   { callee := "optimizer.export", op := .write, direct := false },
   { callee := "dynamic_quantizer.export", op := .write, direct := false },
   { callee := "os.path.getsize", op := .readSize, direct := true },
   { callee := "os.path.getsize", op := .readSize, direct := true }]

/-- Claim C10: the notebook code itself never writes or deletes files.
Every direct filesystem access is a file-size read via os.path.getsize,
every write happens inside one of the named external-library persistence
calls, and no access deletes anything. -/
theorem notebook_frame_effects :
    (∀ a ∈ notebookFsAccesses,
      a.direct = true → a.op = FsOp.readSize ∧ a.callee = "os.path.getsize")
    ∧ (∀ a ∈ notebookFsAccesses,
      a.op = FsOp.write → a.direct = false ∧ a.callee ∈ persistenceCallees)
    ∧ (∀ a ∈ notebookFsAccesses, a.op ≠ FsOp.delete) := by
  decide

/-- The direct os.path.getsize access of the second notebook. -/
def getsizeAccess : FsAccess :=
  { callee := "os.path.getsize", op := FsOp.readSize, direct := true }

/-- Witness for claim C10 at a concrete access: the os.path.getsize access
of the second notebook is direct and is a file-size read. -/
theorem notebook_frame_effects_witness :
    getsizeAccess.op = FsOp.readSize
    ∧ getsizeAccess.callee = "os.path.getsize" :=
  notebook_frame_effects.1 getsizeAccess (by decide) rfl

end OptimumGpu
